import Mathlib

/-!
Verification of the Document Extraction & Normalization Engine
(mcp-server: document_processor.py, docling_processor.py, config.py,
processors/textract_processor.py, processors/local_processor.py).

Python dictionaries that the code builds with fixed keys are modelled as
Lean structures; Python exceptions are modelled with `Except String`;
byte sizes and character counts are `Nat`; Textract row/column keys are
`Int` because the code subtracts 1 from the raw index. Wall-clock fields
(`processedAt`) are omitted: no claim mentions them.
-/

/-- Python str.strip(): remove whitespace from both ends. Defined over
the character list (structural recursion) so proofs can evaluate it. -/
def pyStrip (s : String) : String :=
  String.mk (((s.toList.dropWhile Char.isWhitespace).reverse.dropWhile
      Char.isWhitespace).reverse)

/-- Python str.startswith(pre). -/
def pyStartsWith (s pre : String) : Bool :=
  pre.toList.isPrefixOf s.toList

/-- Counts the maximal non-whitespace runs of a character list; the Bool
tracks whether the previous character was inside a word. -/
def wordCountAux : List Char → Bool → Nat
  | [], _ => 0
  | c :: cs, inWord =>
    if c.isWhitespace then wordCountAux cs false
    else (if inWord then 0 else 1) + wordCountAux cs true

/-- len(s.split()): Python split with no separator counts maximal
whitespace-free runs. -/
def pythonWordCount (s : String) : Nat :=
  wordCountAux s.toList false

/-- Chunk metadata mapping (free-form dict in the source; the engine only
ever stores these keys). `tableId := some none` models the Python key
`tableId` present with value `None`. -/
structure ChunkMeta where
  pageNumber : Option Nat := none
  source : Option String := none
  hasTable : Option Bool := none
  tableId : Option (Option String) := none
deriving DecidableEq, Repr

/-- A retrievable unit of content (the chunk dicts built by every backend). -/
structure Chunk where
  id : String
  content : String
  startIndex : Nat
  endIndex : Nat
  type : String
  metadata : ChunkMeta
deriving DecidableEq, Repr

/-- A reconstructed table (the table dicts built by every backend).
Textract confidences are floats in the source; no claim computes with
them, so they are carried as `Option Nat`. -/
structure Table where
  id : String
  title : String
  headers : List String
  rows : List (List String)
  markdown : String
  pageNumber : Option Nat := none
  confidence : Option Nat := none
  extractor : Option String := none
deriving DecidableEq, Repr

/-- Document metadata dict. -/
structure DocMetadata where
  pageCount : Option Nat := none
  wordCount : Nat
  characterCount : Nat
  language : Option String := none
  title : Option String := none
deriving DecidableEq, Repr

/-- Layout dict. -/
structure Layout where
  hasMultipleColumns : Bool
  pageCount : Nat
  sections : List String
deriving DecidableEq, Repr

/-- One processed file: the unified record every processor returns. -/
structure Document where
  success : Bool
  processor : String
  fileName : String
  content : String
  type : String
  metadata : DocMetadata
  tables : List Table
  layout : Layout
  chunks : List Chunk
  error : Option String := none
deriving DecidableEq, Repr

/-- document_processor.py `DocumentProcessor._create_error_document`
(lines 159-193). `fileName` stands for `os.path.basename(file_path)`. -/
def createErrorDocument (fileName error : String) : Document :=
  let errorMsg := "Error processing document: " ++ error
  { success := false
    processor := "error"
    fileName := fileName
    content := errorMsg
    type := "error"
    metadata := { wordCount := 0, characterCount := errorMsg.length }
    tables := []
    layout := { hasMultipleColumns := false, pageCount := 0, sections := [] }
    chunks := [{ id := "error-chunk", content := errorMsg, startIndex := 0,
                 endIndex := errorMsg.length, type := "error", metadata := {} }]
    error := some error }

/-- docling_processor.py `DocumentProcessor._create_error_document`
(lines 442-476). Identical to the orchestrator version except that the
single chunk is emitted with type "paragraph". -/
def doclingCreateErrorDocument (fileName error : String) : Document :=
  let errorMsg := "Error processing document: " ++ error
  { success := false
    processor := "error"
    fileName := fileName
    content := errorMsg
    type := "error"
    metadata := { wordCount := 0, characterCount := errorMsg.length }
    tables := []
    layout := { hasMultipleColumns := false, pageCount := 0, sections := [] }
    chunks := [{ id := "error-chunk", content := errorMsg, startIndex := 0,
                 endIndex := errorMsg.length, type := "paragraph", metadata := {} }]
    error := some error }

/-- One markdown line: "| " + " | ".join(cells) + " |". -/
def markdownRowLine (cells : List String) : String :=
  "| " ++ String.intercalate " | " cells ++ " |"

/-- padded_row = row + [""] * (len(headers) - len(row)); padded_row[:len(headers)].
Python list repetition with a negative count yields the empty list, which
Nat subtraction models exactly. -/
def padTruncateRow (headers : List String) (row : List String) : List String :=
  (row ++ List.replicate (headers.length - row.length) "").take headers.length

/-- The md_lines list built by `_table_to_markdown` when headers is non-empty. -/
def markdownLines (headers : List String) (rows : List (List String)) : List String :=
  markdownRowLine headers
    :: markdownRowLine (List.replicate headers.length "---")
    :: rows.map (fun row => markdownRowLine (padTruncateRow headers row))

/-- `_table_to_markdown(headers, rows)`: identical code in
textract_processor.py (267-286), local_processor.py (230-249) and
docling_processor.py (188-212). -/
def tableToMarkdown (headers : List String) (rows : List (List String)) : String :=
  if headers.isEmpty then ""
  else String.intercalate "\n" (markdownLines headers rows)

/-- config.py `ProcessorConfig`: the fields `process_document` routing reads. -/
structure ProcessorConfig where
  awsTextractEnabled : Bool
  textractMaxFileSizeMB : Nat
  textractMaxPages : Nat
  useLocalFallback : Bool
deriving DecidableEq, Repr

/-- config.py `validate_aws_config` (lines 44-55): returns False when
Textract is disabled, True otherwise (boto3 resolves credentials). -/
def validateAwsConfig (cfg : ProcessorConfig) : Bool :=
  if !cfg.awsTextractEnabled then false else true

/-- config.py `should_use_textract` (lines 57-75). The source compares
`file_size_bytes / (1024*1024) > TEXTRACT_MAX_FILE_SIZE_MB` in float
arithmetic; division by the power of two 2^20 is exact for realistic
sizes, so the comparison equals the integer test below. Python treats
`page_count` of None or 0 as falsy, skipping the page check. -/
def shouldUseTextract (cfg : ProcessorConfig) (fileSizeBytes : Nat)
    (pageCount : Option Nat) : Bool :=
  if !cfg.awsTextractEnabled then false
  else if !validateAwsConfig cfg then false
  else if fileSizeBytes > cfg.textractMaxFileSizeMB * 1048576 then false
  else match pageCount with
    | some p => if p ≠ 0 ∧ p > cfg.textractMaxPages then false else true
    | none => true

/-- Environment of one `DocumentProcessor.process_document` call: the
configuration, which processors initialized (lines 51-76), and the
outcomes of the three effectful calls the method makes. `getsize` is the
`os.path.getsize` call at line 102, which sits OUTSIDE the try block. -/
structure SelectorEnv where
  cfg : ProcessorConfig
  textractProc : Bool
  localProc : Bool
  getsize : Except String Nat
  textractCall : Except String Document
  localCall : Except String Document

/-- Result of one routing run, recording which backends were invoked. -/
structure SelectorOutcome where
  result : Except String Document
  cloudAttempted : Bool
  localAttempted : Bool

/-- document_processor.py `_should_use_textract` (lines 144-157). -/
def selectorShouldUseTextract (env : SelectorEnv) (fileSize : Nat) : Bool :=
  env.textractProc && shouldUseTextract env.cfg fileSize none

/-- The tail of the try block of `process_document` (lines 126-138): use
the local processor when present, else return the no-processor error
document; a local failure is caught by the outer except (lines 140-142). -/
def afterCloud (env : SelectorEnv) (fileName : String) (cloudTried : Bool) :
    SelectorOutcome :=
  if env.localProc then
    match env.localCall with
    | .ok d => { result := .ok d, cloudAttempted := cloudTried, localAttempted := true }
    | .error e => { result := .ok (createErrorDocument fileName e),
                    cloudAttempted := cloudTried, localAttempted := true }
  else
    { result := .ok (createErrorDocument fileName
        "No document processor available (Textract disabled and local fallback unavailable)"),
      cloudAttempted := cloudTried, localAttempted := false }

/-- document_processor.py `process_document` (lines 78-142). A failing
`getsize` raises before the try block and propagates (`.error`). Inside
the try, a Textract failure with `USE_LOCAL_FALLBACK` off is re-raised
and caught by the outer except, which returns an error document; with
fallback on, control falls through to the local branch. -/
def processDocumentSel (env : SelectorEnv) (fileName : String) : SelectorOutcome :=
  match env.getsize with
  | .error e => { result := .error e, cloudAttempted := false, localAttempted := false }
  | .ok fileSize =>
    if selectorShouldUseTextract env fileSize then
      match env.textractCall with
      | .ok d => { result := .ok d, cloudAttempted := true, localAttempted := false }
      | .error e =>
        if !env.cfg.useLocalFallback then
          { result := .ok (createErrorDocument fileName e),
            cloudAttempted := true, localAttempted := false }
        else afterCloud env fileName true
    else afterCloud env fileName false

/-- A Textract relationship: {"Type": ..., "Ids": [...]}. -/
structure Relationship where
  type : String
  ids : List String
deriving DecidableEq, Repr

/-- A Textract block. Absent dict keys are `none`; the code reads them
with `.get` defaults. -/
structure Block where
  id : String
  blockType : String
  text : Option String := none
  page : Option Nat := none
  rowIndex : Option Nat := none
  columnIndex : Option Nat := none
  confidence : Option Nat := none
  relationships : List Relationship := []
deriving DecidableEq, Repr

/-- textract_processor.py `_extract_text_from_blocks` (lines 154-164):
for each LINE block, strip its Text and keep it only when non-empty,
then join with newlines in input order. -/
def extractTextFromBlocks (blocks : List Block) : String :=
  String.intercalate "\n" (blocks.filterMap (fun b =>
    if b.blockType == "LINE" then
      let text := pyStrip (b.text.getD "")
      if text ≠ "" then some text else none
    else none))

/-- The full-text join exactly as claim C8 words it: the Text of every
LINE block, unaltered and with none omitted, joined with newlines. -/
def specJoinAllLineTexts (blocks : List Block) : String :=
  String.intercalate "\n"
    ((blocks.filter (fun b => b.blockType == "LINE")).map (fun b => b.text.getD ""))

/-- textract_processor.py `_get_cell_text` inner loop: a child id
contributes its block Text when the id resolves to a WORD block with
non-empty Text, and is skipped otherwise. -/
def wordTextsOf (ids : List String) (blockMap : String → Option Block) : List String :=
  ids.filterMap (fun childId =>
    match blockMap childId with
    | some child =>
      if child.blockType == "WORD" then
        let wordText := child.text.getD ""
        if wordText ≠ "" then some wordText else none
      else none
    | none => none)

/-- textract_processor.py `_get_cell_text` (lines 251-265): iterate ALL
relationships of type CHILD (the loop has no break), collect the word
texts of their ids in order, join with single spaces. -/
def getCellText (cellBlock : Block) (blockMap : String → Option Block) : String :=
  String.intercalate " "
    (((cellBlock.relationships.filter (fun r => r.type == "CHILD")).map
        (fun r => wordTextsOf r.ids blockMap)).flatten)

/-- textract_processor.py `_parse_table_block` lines 199-204: take the
Ids of the FIRST relationship of type CHILD (the loop breaks), [] if none. -/
def firstChildIds (b : Block) : List String :=
  match b.relationships.find? (fun r => r.type == "CHILD") with
  | some r => r.ids
  | none => []

/-- `_parse_table_block` lines 210-224: each cell id that resolves to a
CELL block yields the entry (RowIndex-1, ColumnIndex-1, cell text); both
indices default to 1 when absent, and the subtraction is over Int as in
Python. Ids that are dangling or resolve to a non-CELL block are skipped. -/
def cellEntries (cellIds : List String) (blockMap : String → Option Block) :
    List (Int × Int × String) :=
  cellIds.filterMap (fun cellId =>
    match blockMap cellId with
    | some cb =>
      if cb.blockType == "CELL" then
        some (Int.ofNat (cb.rowIndex.getD 1) - 1,
              Int.ofNat (cb.columnIndex.getD 1) - 1,
              getCellText cb blockMap)
      else none
    | none => none)

/-- Lookup in the cells_by_position dict of dicts: repeated writes to the
same (row, col) overwrite, so the lookup returns the LAST matching entry. -/
def cellAt (entries : List (Int × Int × String)) (r c : Int) : Option String :=
  ((entries.filter (fun e => e.1 == r && e.2.1 == c)).getLast?).map (fun e => e.2.2)

/-- max(cells_by_position.keys()). Row keys produced by `cellEntries` are
always at least -1 (they are Nat - 1 over Int), so folding from -1 equals
the Python max over a non-empty key set. -/
def maxRowOf (entries : List (Int × Int × String)) : Int :=
  (entries.map (fun e => e.1)).foldl max (-1)

/-- max(max(row.keys()) for row in cells_by_position.values()), which
equals the maximum column key over all entries. -/
def maxColOf (entries : List (Int × Int × String)) : Int :=
  (entries.map (fun e => e.2.1)).foldl max (-1)

/-- `_parse_table_block` lines 230-240: the dense (max_row+1) x
(max_col+1) grid; positions absent from the sparse map become "".
`Int.toNat` models Python range over a possibly negative bound. -/
def denseGrid (entries : List (Int × Int × String)) : List (List String) :=
  (List.range (maxRowOf entries + 1).toNat).map (fun r =>
    (List.range (maxColOf entries + 1).toNat).map (fun c =>
      (cellAt entries (Int.ofNat r) (Int.ofNat c)).getD ""))

/-- Parsed grid: headers = first row, rows = remaining rows. -/
structure TableData where
  headers : List String
  rows : List (List String)
deriving DecidableEq, Repr

/-- textract_processor.py `_parse_table_block` (lines 195-249): None when
there is no CHILD relationship, when no id resolves to a CELL block, or
when the materialized grid is empty; otherwise first grid row is the
header and the remaining rows the body. -/
def parseTableBlock (tableBlock : Block) (blockMap : String → Option Block) :
    Option TableData :=
  let cellIds := firstChildIds tableBlock
  if cellIds.isEmpty then none
  else
    let entries := cellEntries cellIds blockMap
    if entries.isEmpty then none
    else
      let grid := denseGrid entries
      if grid.isEmpty then none
      else some { headers := grid.headD [], rows := grid.tail }

/-- The sparse row-to-col map exactly as the spec words it: place each
cell at (RowIndex-1, ColumnIndex-1), later placements overwriting. -/
def specSparsePlace (entries : List (Int × Int × String)) : Int → Int → Option String :=
  entries.foldl
    (fun m e => fun r c => if r = e.1 ∧ c = e.2.1 then some e.2.2 else m r c)
    (fun _ _ => none)

/-- The dense grid exactly as the spec words it, filling positions absent
from the sparse map with the empty string. -/
def specGrid (entries : List (Int × Int × String)) : List (List String) :=
  (List.range (maxRowOf entries + 1).toNat).map (fun r =>
    (List.range (maxColOf entries + 1).toNat).map (fun c =>
      (specSparsePlace entries (Int.ofNat r) (Int.ofNat c)).getD ""))

/-- Python substring test `pat in s` over the character list. -/
def strContains (s pat : String) : Bool :=
  (List.range (s.length + 1)).any (fun i =>
    ((s.toList.drop i).take pat.length) == pat.toList)

/-- State of `_create_intelligent_chunks` (docling_processor.py 229-306):
emitted chunks, next chunk id, accumulating buffer, running start offset. -/
structure ChunkState where
  chunks : List Chunk
  chunkId : Nat
  currentChunk : String
  currentStart : Nat
deriving DecidableEq, Repr

/-- Lines 254-266 of docling_processor.py: when the flush condition fires
and the buffer is non-empty, emit it as one paragraph chunk and reset. -/
def flushBuffer (st : ChunkState) : ChunkState :=
  if st.currentChunk ≠ "" then
    { chunks := st.chunks ++ [{
        id := "chunk-" ++ toString st.chunkId,
        content := pyStrip st.currentChunk,
        startIndex := st.currentStart,
        endIndex := st.currentStart + st.currentChunk.length,
        type := "paragraph",
        metadata := {} }],
      chunkId := st.chunkId + 1,
      currentChunk := "",
      currentStart := st.currentStart + st.currentChunk.length }
  else st

/-- Loop body of `_create_intelligent_chunks` (lines 245-293) for one
paragraph: strip it, skip if empty; flush when the buffer plus the
paragraph would pass 1500 characters (the literal in the source) or when
a table row meets a non-empty buffer; append the paragraph plus a blank
line; a table paragraph is then emitted as its own table chunk, tagged
with the first table whose markdown is a substring of it, and the buffer
is reset. -/
def chunkStep (tables : List Table) (st : ChunkState) (para0 : String) : ChunkState :=
  let para := pyStrip para0
  if para = "" then st
  else
    let isTable := pyStartsWith para "|"
    let st1 := if 1500 < st.currentChunk.length + para.length ∨
                  (isTable = true ∧ st.currentChunk ≠ "")
               then flushBuffer st else st
    let st2 := { st1 with currentChunk := st1.currentChunk ++ para ++ "\n\n" }
    if isTable then
      { chunks := st2.chunks ++ [{
          id := "chunk-" ++ toString st2.chunkId,
          content := para,
          startIndex := st2.currentStart,
          endIndex := st2.currentStart + para.length,
          type := "table",
          metadata := { hasTable := some true,
                        tableId := some ((tables.find?
                          (fun t => strContains para t.markdown)).map Table.id) } }],
        chunkId := st2.chunkId + 1,
        currentChunk := "",
        currentStart := st2.currentStart + para.length }
    else st2

/-- docling_processor.py `_create_intelligent_chunks` (lines 229-306):
split on blank lines, fold the step over the paragraphs, then emit any
remaining buffer whose stripped content is non-empty. -/
def createIntelligentChunks (content : String) (tables : List Table) : List Chunk :=
  let finalState := (content.splitOn "\n\n").foldl (chunkStep tables)
      { chunks := [], chunkId := 0, currentChunk := "", currentStart := 0 }
  if pyStrip finalState.currentChunk = "" then finalState.chunks
  else finalState.chunks ++ [{
    id := "chunk-" ++ toString finalState.chunkId,
    content := pyStrip finalState.currentChunk,
    startIndex := finalState.currentStart,
    endIndex := finalState.currentStart + finalState.currentChunk.length,
    type := "paragraph",
    metadata := {} }]

/-- Per-page input to the local extractor: the text PyMuPDF returns for
the page and the tables its built-in detector finds there. -/
structure PageData where
  text : String
  tables : List Table
deriving DecidableEq, Repr

/-- Loop state of `_process_with_pymupdf` (local_processor.py 86-155). -/
structure PyMuPdfState where
  fullText : String
  chunks : List Chunk
  tables : List Table
  chunkId : Nat
deriving DecidableEq, Repr

/-- The page-boundary marker interpolated at local_processor.py line 108. -/
def pageMarker (pageNum : Nat) : String :=
  "\n--- Page " ++ toString pageNum ++ " ---\n"

/-- Loop body of `_process_with_pymupdf` for the 1-based page `pageNum`:
when the stripped page text is non-empty, append marker + text + newline
to the running full text and emit one chunk whose startIndex is
len(full_text) - len(text) AFTER the append and whose endIndex is
len(full_text) after the append; page tables are collected either way. -/
def pymupdfStep (st : PyMuPdfState) (pageNum : Nat) (page : PageData) : PyMuPdfState :=
  if pyStrip page.text ≠ "" then
    let fullText := st.fullText ++ pageMarker pageNum ++ page.text ++ "\n"
    { fullText := fullText,
      chunks := st.chunks ++ [{
        id := "chunk-" ++ toString st.chunkId,
        content := pyStrip page.text,
        startIndex := fullText.length - page.text.length,
        endIndex := fullText.length,
        type := "page",
        metadata := { pageNumber := some pageNum } }],
      tables := st.tables ++ page.tables,
      chunkId := st.chunkId + 1 }
  else { st with tables := st.tables ++ page.tables }

/-- local_processor.py `_process_with_pymupdf` (lines 86-155): fold the
pages, then assemble the Document with page count, whitespace word count
and character count of the accumulated full text. -/
def processWithPymupdf (fileName : String) (pages : List PageData) : Document :=
  let pageCount := pages.length
  let st := pages.enum.foldl
      (fun st p => pymupdfStep st (p.1 + 1) p.2)
      { fullText := "", chunks := [], tables := [], chunkId := 0 }
  { success := true
    processor := "local_pymupdf"
    fileName := fileName
    content := pyStrip st.fullText
    type := "application/pdf"
    metadata := { pageCount := some pageCount,
                  wordCount := pythonWordCount st.fullText,
                  characterCount := st.fullText.length,
                  language := some "en" }
    tables := st.tables
    layout := { hasMultipleColumns := false, pageCount := pageCount, sections := [] }
    chunks := st.chunks }

/-- local_processor.py line 74: `pdfplumber_tables or pymupdf_data["tables"]`.
Python `or` keeps the built-in tables when the pdfplumber result is None
(unavailable or raised) or the empty list. -/
def mergeTables (pdfplumberTables : Option (List Table)) (builtin : List Table) :
    List Table :=
  match pdfplumberTables with
  | some ts => if ts.isEmpty then builtin else ts
  | none => builtin

/-- local_processor.py `LocalProcessor.process_document` (lines 49-84):
a PyMuPDF failure re-raises; otherwise, when pdfplumber is enabled, its
tables replace the built-in ones under the `or` rule, and the processor
tag and declared type are updated. `pdfplumberTables` is the value of
`_extract_tables_with_pdfplumber`, which returns None when the library
is unavailable or raises (lines 185-228). -/
def localProcessDocument (enablePdfplumber : Bool) (fileType : String)
    (pymupdfResult : Except String Document)
    (pdfplumberTables : Option (List Table)) : Except String Document :=
  match pymupdfResult with
  | .error e => .error e
  | .ok data =>
    let data1 := if enablePdfplumber then
        { data with tables := mergeTables pdfplumberTables data.tables }
      else data
    .ok { data1 with
      processor := if enablePdfplumber then "local_pymupdf_pdfplumber" else "local_pymupdf",
      type := fileType }

/-- The merge rule exactly as the spec words it: the result is S when S
is a non-empty list, and B otherwise (S empty or absent). -/
def specTableMerge (s : Option (List Table)) (b : List Table) : List Table :=
  match s with
  | some (t :: ts) => t :: ts
  | some [] => b
  | none => b

/-- A WORD block with the given id and text. -/
def wordBlock (i t : String) : Block :=
  { id := i, blockType := "WORD", text := some t }

/-- A LINE block with the given id and text. -/
def lineBlock (i t : String) : Block :=
  { id := i, blockType := "LINE", text := some t }

/-- A CELL block at the given 1-based row and column with WORD children. -/
def cellBlock (i : String) (r c : Nat) (wordIds : List String) : Block :=
  { id := i, blockType := "CELL", rowIndex := some r, columnIndex := some c,
    relationships := [{ type := "CHILD", ids := wordIds }] }

/-- A TABLE block whose single-row cells sit at RowIndex 1 only. -/
def tableBlockW : Block :=
  { id := "t1", blockType := "TABLE",
    relationships := [{ type := "CHILD", ids := ["c1", "c2"] }] }

/-- Block index for `tableBlockW`: two header cells, two words. -/
def blockMapW : String → Option Block := fun i =>
  if i = "c1" then some (cellBlock "c1" 1 1 ["w1"])
  else if i = "c2" then some (cellBlock "c2" 1 2 ["w2"])
  else if i = "w1" then some (wordBlock "w1" "Name")
  else if i = "w2" then some (wordBlock "w2" "Age")
  else none

/-- A CELL block with two CHILD relationships. -/
def cellTwoRels : Block :=
  { id := "c", blockType := "CELL", rowIndex := some 1, columnIndex := some 1,
    relationships := [{ type := "CHILD", ids := ["wa"] },
                      { type := "CHILD", ids := ["wb"] }] }

/-- Block index for `cellTwoRels`. -/
def blockMapTwoRels : String → Option Block := fun i =>
  if i = "wa" then some (wordBlock "wa" "alpha")
  else if i = "wb" then some (wordBlock "wb" "beta")
  else none

/-- Three LINE blocks: padded text, whitespace-only text, plain text. -/
def lineBlocksC : List Block :=
  [lineBlock "l1" " a ", lineBlock "l2" "  ", lineBlock "l3" "b"]

/-- A 1497-character paragraph. -/
def longPara : String := String.mk (List.replicate 1497 'x')

/-- A 1496-character paragraph. -/
def longPara2 : String := String.mk (List.replicate 1496 'x')

/-- A chunker state holding a 4-character buffer. -/
def stW : ChunkState :=
  { chunks := [], chunkId := 0, currentChunk := "ab\n\n", currentStart := 0 }

/-- A local Document as the local backend would return it. -/
def docW : Document :=
  { success := true, processor := "local_pymupdf", fileName := "big.pdf",
    content := "hi", type := "application/pdf",
    metadata := { wordCount := 1, characterCount := 2 },
    tables := [],
    layout := { hasMultipleColumns := false, pageCount := 1, sections := [] },
    chunks := [] }

/-- A call environment where the file does not exist: `os.path.getsize`
raises before the try block of `process_document`. -/
def envMissingFile : SelectorEnv :=
  { cfg := { awsTextractEnabled := false, textractMaxFileSizeMB := 10,
             textractMaxPages := 100, useLocalFallback := true },
    textractProc := false, localProc := true,
    getsize := .error "No such file or directory: report.pdf",
    textractCall := .error "unused", localCall := .error "unused" }

/-- A call environment where the size check succeeds and every backend
fails, exercising the catch-all path. -/
def envOkSize : SelectorEnv :=
  { cfg := { awsTextractEnabled := true, textractMaxFileSizeMB := 10,
             textractMaxPages := 100, useLocalFallback := true },
    textractProc := true, localProc := true,
    getsize := .ok 1000,
    textractCall := .error "Textract API error: Throttling - rate exceeded",
    localCall := .error "cannot open broken.pdf" }

/-- A 50 MB file under a 10 MB cloud limit with fallback enabled. -/
def env50MB : SelectorEnv :=
  { cfg := { awsTextractEnabled := true, textractMaxFileSizeMB := 10,
             textractMaxPages := 100, useLocalFallback := true },
    textractProc := true, localProc := true,
    getsize := .ok 52428800,
    textractCall := .error "should never be attempted",
    localCall := .ok docW }

/-! ## Helper lemmas -/

theorem padTruncateRow_length (headers row : List String) :
    (padTruncateRow headers row).length = headers.length := by
  simp [padTruncateRow]
  omega

theorem headD_cons_tail {α : Type} (l : List α) (d : α) (h : l ≠ []) :
    l.headD d :: l.tail = l := by
  cases l with
  | nil => exact absurd rfl h
  | cons a l => rfl

/-! ## C1 -/

/-- C1 (amended): every terminal-error Document built by either
`_create_error_document` has success false, processor "error", empty
tables, zero word count, and exactly one chunk carrying the readable
message; that chunk has type "error" in document_processor.py but type
"paragraph" in docling_processor.py. -/
theorem error_documents_are_structurally_complete (fileName error : String) :
    (createErrorDocument fileName error).success = false ∧
    (createErrorDocument fileName error).processor = "error" ∧
    (createErrorDocument fileName error).tables = [] ∧
    (createErrorDocument fileName error).metadata.wordCount = 0 ∧
    (createErrorDocument fileName error).chunks =
      [{ id := "error-chunk", content := "Error processing document: " ++ error,
         startIndex := 0, endIndex := ("Error processing document: " ++ error).length,
         type := "error", metadata := {} }] ∧
    (doclingCreateErrorDocument fileName error).success = false ∧
    (doclingCreateErrorDocument fileName error).processor = "error" ∧
    (doclingCreateErrorDocument fileName error).tables = [] ∧
    (doclingCreateErrorDocument fileName error).metadata.wordCount = 0 ∧
    (doclingCreateErrorDocument fileName error).chunks =
      [{ id := "error-chunk", content := "Error processing document: " ++ error,
         startIndex := 0, endIndex := ("Error processing document: " ++ error).length,
         type := "paragraph", metadata := {} }] :=
  ⟨rfl, rfl, rfl, rfl, rfl, rfl, rfl, rfl, rfl, rfl⟩

/-- C1 counterexample: the docling error constructor returns a
success-false Document whose single chunk is typed "paragraph", not
"error". -/
theorem docling_error_chunk_type_is_paragraph :
    (doclingCreateErrorDocument "doc.pdf" "boom").success = false ∧
    (doclingCreateErrorDocument "doc.pdf" "boom").chunks.map Chunk.type = ["paragraph"] ∧
    ("paragraph" : String) ≠ "error" :=
  ⟨rfl, rfl, by decide⟩

/-! ## C6 -/

/-- C6: with an empty header the markdown rendering is the empty string;
with a non-empty header the rendering is one line for the header, one
separator line, and exactly one line per body row, each body line built
from exactly len(headers) cells, under-length rows padded with "" and
over-length rows truncated. -/
theorem tableToMarkdown_row_discipline (headers : List String) (rows : List (List String)) :
    (headers = [] → tableToMarkdown headers rows = "") ∧
    (headers ≠ [] →
      tableToMarkdown headers rows = String.intercalate "\n" (markdownLines headers rows) ∧
      markdownLines headers rows =
        markdownRowLine headers
          :: markdownRowLine (List.replicate headers.length "---")
          :: rows.map (fun row => markdownRowLine (padTruncateRow headers row)) ∧
      (markdownLines headers rows).length = 2 + rows.length ∧
      ∀ row ∈ rows, (padTruncateRow headers row).length = headers.length) := by
  constructor
  · intro h
    simp [tableToMarkdown, h]
  · intro h
    refine ⟨?_, rfl, ?_, ?_⟩
    · simp [tableToMarkdown, h]
    · simp [markdownLines]
      omega
    · intro row _
      exact padTruncateRow_length headers row

/-- C6 witness: a two-column header with an under-length and an
over-length body row. -/
theorem tableToMarkdown_row_discipline_witness :
    (["A", "B"] : List String) ≠ [] ∧
    (tableToMarkdown ["A", "B"] [["1"], ["1", "2", "3"]] =
        String.intercalate "\n" (markdownLines ["A", "B"] [["1"], ["1", "2", "3"]]) ∧
      markdownLines ["A", "B"] [["1"], ["1", "2", "3"]] =
        markdownRowLine ["A", "B"]
          :: markdownRowLine (List.replicate (["A", "B"] : List String).length "---")
          :: [["1"], ["1", "2", "3"]].map
              (fun row => markdownRowLine (padTruncateRow ["A", "B"] row)) ∧
      (markdownLines ["A", "B"] [["1"], ["1", "2", "3"]]).length = 2 + 2 ∧
      ∀ row ∈ [["1"], ["1", "2", "3"]],
        (padTruncateRow ["A", "B"] row).length = (["A", "B"] : List String).length) :=
  ⟨by decide, (tableToMarkdown_row_discipline ["A", "B"] [["1"], ["1", "2", "3"]]).2 (by decide)⟩

/-! ## C4 -/

/-- C4: the Document returned by the local processor carries the
specialized-extractor tables when they are a non-empty list and the
built-in tables otherwise (empty result, extractor unavailable or
raised, or pdfplumber disabled); a PyMuPDF failure re-raises. The
replacement is whole-collection, never cell-level. -/
theorem local_tables_merge_policy (enable : Bool) (fileType : String)
    (data : Document) (s : Option (List Table)) (msg : String) :
    (localProcessDocument enable fileType (.ok data) s).map Document.tables =
      .ok (specTableMerge (if enable then s else none) data.tables) ∧
    localProcessDocument enable fileType (.error msg) s = .error msg := by
  constructor
  · cases enable with
    | false => simp [localProcessDocument, specTableMerge, Except.map]
    | true =>
      cases s with
      | none => simp [localProcessDocument, mergeTables, specTableMerge, Except.map]
      | some ts =>
        cases ts with
        | nil => simp [localProcessDocument, mergeTables, specTableMerge, Except.map]
        | cons t ts => simp [localProcessDocument, mergeTables, specTableMerge, Except.map]
  · rfl

/-! ## C7 -/

/-- C7: a file larger than the configured Textract byte limit, with
local fallback enabled and the local processor initialized, is routed to
the local backend: the cloud call is never attempted, the local backend
is invoked, and its Document is returned unchanged — the ineligibility
produces no error. -/
theorem oversize_file_routes_local (env : SelectorEnv) (fileName : String)
    (fileSize : Nat) (d : Document)
    (hsize : env.getsize = .ok fileSize)
    (hbig : env.cfg.textractMaxFileSizeMB * 1048576 < fileSize)
    (hlp : env.localProc = true)
    (hlc : env.localCall = .ok d) :
    (processDocumentSel env fileName).cloudAttempted = false ∧
    (processDocumentSel env fileName).localAttempted = true ∧
    (processDocumentSel env fileName).result = .ok d := by
  have hsut : shouldUseTextract env.cfg fileSize none = false := by
    unfold shouldUseTextract
    by_cases h : env.cfg.awsTextractEnabled = true
    · simp [h, validateAwsConfig, hbig]
    · simp [h]
  have hsel : selectorShouldUseTextract env fileSize = false := by
    simp [selectorShouldUseTextract, hsut]
  unfold processDocumentSel
  rw [hsize]
  simp [hsel, afterCloud, hlp, hlc]

/-- C7 witness: a 50 MB file against a 10 MB limit routes to local. -/
theorem oversize_file_routes_local_witness :
    env50MB.getsize = .ok 52428800 ∧
    env50MB.cfg.textractMaxFileSizeMB * 1048576 < 52428800 ∧
    env50MB.localProc = true ∧
    env50MB.localCall = .ok docW ∧
    ((processDocumentSel env50MB "big.pdf").cloudAttempted = false ∧
     (processDocumentSel env50MB "big.pdf").localAttempted = true ∧
     (processDocumentSel env50MB "big.pdf").result = .ok docW) :=
  ⟨rfl, by norm_num [env50MB], rfl, rfl,
   oversize_file_routes_local env50MB "big.pdf" 52428800 docW rfl
     (by norm_num [env50MB]) rfl rfl⟩

/-! ## C2 -/

theorem afterCloud_returns_ok (env : SelectorEnv) (fileName : String)
    (cloudTried : Bool) : ∃ d, (afterCloud env fileName cloudTried).result = .ok d := by
  unfold afterCloud
  by_cases hlp : env.localProc = true
  · cases hlc : env.localCall with
    | ok d => exact ⟨d, by simp [hlp, hlc]⟩
    | error e => exact ⟨createErrorDocument fileName e, by simp [hlp, hlc]⟩
  · exact ⟨createErrorDocument fileName
      "No document processor available (Textract disabled and local fallback unavailable)",
      by simp [hlp]⟩

/-- C2 (amended): once `os.path.getsize` has succeeded, every outcome of
`process_document` — cloud success, cloud failure with or without
fallback permitted, local failure, no processor available — is returned
as a Document, never raised. (The size inspection itself sits outside
the try block, so its errors do propagate: see the counterexample.) -/
theorem selector_returns_document_after_size (env : SelectorEnv) (fileName : String)
    (fileSize : Nat) (hsize : env.getsize = .ok fileSize) :
    ∃ d, (processDocumentSel env fileName).result = .ok d := by
  unfold processDocumentSel
  rw [hsize]
  by_cases hsel : selectorShouldUseTextract env fileSize = true
  · cases htc : env.textractCall with
    | ok d => exact ⟨d, by simp [hsel, htc]⟩
    | error e =>
      by_cases hfb : env.cfg.useLocalFallback = true
      · have ⟨d, hd⟩ := afterCloud_returns_ok env fileName true
        exact ⟨d, by simp [hsel, htc, hfb]; exact hd⟩
      · exact ⟨createErrorDocument fileName e, by simp [hsel, htc, hfb]⟩
  · have ⟨d, hd⟩ := afterCloud_returns_ok env fileName false
    exact ⟨d, by simp [hsel]; exact hd⟩

/-- C2 counterexample: with a path whose size inspection fails (missing
file), `process_document` propagates the exception instead of returning
a Document — `os.path.getsize` at line 102 runs before the try block. -/
theorem selector_raises_on_missing_file :
    (processDocumentSel envMissingFile "report.pdf").result =
      .error "No such file or directory: report.pdf" ∧
    ∀ d : Document, (processDocumentSel envMissingFile "report.pdf").result ≠ .ok d := by
  refine ⟨rfl, ?_⟩
  intro d h
  rw [show (processDocumentSel envMissingFile "report.pdf").result =
      .error "No such file or directory: report.pdf" from rfl] at h
  exact Except.noConfusion h

/-- C2 witness: with the size obtained, even double backend failure
yields a Document. -/
theorem selector_returns_document_after_size_witness :
    envOkSize.getsize = .ok 1000 ∧
    ∃ d, (processDocumentSel envOkSize "report.pdf").result = .ok d :=
  ⟨rfl, selector_returns_document_after_size envOkSize "report.pdf" 1000 rfl⟩


/-! ## C8 -/

theorem filterMap_filter_map_filter {α β : Type} (p : α → Bool) (g : α → β)
    (q : β → Prop) [DecidablePred q] (l : List α) :
    l.filterMap (fun a => if p a then (if q (g a) then some (g a) else none) else none)
      = ((l.filter p).map g).filter (fun b => decide (q b)) := by
  induction l with
  | nil => rfl
  | cons a l ih =>
    simp only [List.filterMap_cons, List.filter_cons, List.map_cons]
    cases hp : p a with
    | false => simp [ih]
    | true =>
      by_cases hq : q (g a)
      · simp [hq, ih]
      · simp [hq, ih]

/-- C8 (amended): the full text is the newline-join of the STRIPPED
texts of the LINE blocks whose stripped text is non-empty, in exactly
the order the backend returned the blocks (no re-sorting); LINE blocks
with whitespace-only text are omitted and surrounding whitespace is
removed, so the join is not verbatim. -/
theorem extract_text_joins_trimmed_nonempty_lines (blocks : List Block) :
    extractTextFromBlocks blocks = String.intercalate "\n"
      (((blocks.filter (fun b => b.blockType == "LINE")).map
          (fun b => pyStrip (b.text.getD ""))).filter (fun t => t ≠ "")) := by
  unfold extractTextFromBlocks
  congr 1
  exact filterMap_filter_map_filter (fun b => b.blockType == "LINE")
    (fun b => pyStrip (b.text.getD "")) (fun t => t ≠ "") blocks

/-- C8 counterexample: a padded LINE text is altered (stripped) and a
whitespace-only LINE is omitted, so the full text differs from the
verbatim join of every LINE Text that the claim describes. -/
theorem extract_text_not_verbatim_join :
    extractTextFromBlocks lineBlocksC = "a\nb" ∧
    specJoinAllLineTexts lineBlocksC = " a \n  \nb" ∧
    extractTextFromBlocks lineBlocksC ≠ specJoinAllLineTexts lineBlocksC :=
  ⟨by decide, by decide, by decide⟩

/-! ## C9 -/

/-- C9 (amended): for every page whose stripped text is non-empty,
exactly one chunk is appended; it has type "page" (not "paragraph"),
metadata pageNumber, endIndex equal to the running full-text length
immediately AFTER appending the page marker, the page text and a
newline, and startIndex equal to endIndex minus the page-text length —
which is the length before the append plus the marker length plus one,
not the length before the append. -/
theorem pymupdf_page_chunk_offsets (st : PyMuPdfState) (pageNum : Nat)
    (page : PageData) (h : pyStrip page.text ≠ "") :
    (pymupdfStep st pageNum page).fullText =
        st.fullText ++ pageMarker pageNum ++ page.text ++ "\n" ∧
    (pymupdfStep st pageNum page).chunks = st.chunks ++ [{
        id := "chunk-" ++ toString st.chunkId,
        content := pyStrip page.text,
        startIndex := (st.fullText ++ pageMarker pageNum ++ page.text ++ "\n").length
          - page.text.length,
        endIndex := (st.fullText ++ pageMarker pageNum ++ page.text ++ "\n").length,
        type := "page",
        metadata := { pageNumber := some pageNum } }] ∧
    (st.fullText ++ pageMarker pageNum ++ page.text ++ "\n").length - page.text.length
      = st.fullText.length + (pageMarker pageNum).length + 1 := by
  have hn : ("\n" : String).length = 1 := rfl
  refine ⟨?_, ?_, ?_⟩
  · simp [pymupdfStep, h]
  · simp [pymupdfStep, h]
  · simp only [String.length_append, hn]
    omega

/-- C9 counterexample: a one-page document with raw text "hello" yields
a chunk of type "page" (the claim says "paragraph") whose startIndex is
17 — the running length before the append was 0, so startIndex does not
equal the pre-append length; it lands past the interpolated page marker. -/
theorem pymupdf_chunk_type_and_offsets_differ :
    (processWithPymupdf "f.pdf" [{ text := "hello", tables := [] }]).chunks.map
        Chunk.type = ["page"] ∧
    (processWithPymupdf "f.pdf" [{ text := "hello", tables := [] }]).chunks.map
        Chunk.startIndex = [17] ∧
    ("page" : String) ≠ "paragraph" ∧ (17 : Nat) ≠ 0 :=
  ⟨by decide, by decide, by decide, by decide⟩

/-- C9 witness: the per-page offset law applied to the first page. -/
theorem pymupdf_page_chunk_offsets_witness :
    pyStrip ({ text := "hello", tables := [] } : PageData).text ≠ "" ∧
    (pymupdfStep { fullText := "", chunks := [], tables := [], chunkId := 0 } 1
        { text := "hello", tables := [] }).chunks =
      [{ id := "chunk-0", content := "hello", startIndex := 17, endIndex := 22,
         type := "page", metadata := { pageNumber := some 1 } }] := by
  have h := pymupdf_page_chunk_offsets
    { fullText := "", chunks := [], tables := [], chunkId := 0 } 1
    { text := "hello", tables := [] } (by decide)
  refine ⟨by decide, ?_⟩
  rw [h.2.1]
  decide

/-! ## C10 -/

/-- C10 (amended): during table reconstruction, a child id that is
absent from the block index or resolves to a block of the wrong type is
silently skipped (cell collection skips non-CELL targets, word
collection skips non-WORD targets); only the FIRST CHILD relationship of
a TABLE block is consulted, but ALL CHILD relationships of a CELL block
are consulted (the word loop has no break); and reconstruction is a
total function that never fails on dangling or mistyped references. -/
theorem table_reconstruction_reference_handling :
    (∀ (ids1 ids2 : List String) (i : String) (bm : String → Option Block),
       (bm i = none ∨ ∃ b, bm i = some b ∧ b.blockType ≠ "CELL") →
       cellEntries (ids1 ++ i :: ids2) bm = cellEntries (ids1 ++ ids2) bm) ∧
    (∀ (ids1 ids2 : List String) (i : String) (bm : String → Option Block),
       (bm i = none ∨ ∃ b, bm i = some b ∧ b.blockType ≠ "WORD") →
       wordTextsOf (ids1 ++ i :: ids2) bm = wordTextsOf (ids1 ++ ids2) bm) ∧
    (∀ (b : Block) (r : Relationship) (rest : List Relationship),
       r.type = "CHILD" →
       firstChildIds { b with relationships := r :: rest } = r.ids) ∧
    (∀ (cb : Block) (r1 r2 : Relationship) (bm : String → Option Block),
       cb.relationships = [r1, r2] → r1.type = "CHILD" → r2.type = "CHILD" →
       getCellText cb bm =
         String.intercalate " " (wordTextsOf r1.ids bm ++ wordTextsOf r2.ids bm)) ∧
    (∀ (tb : Block) (bm : String → Option Block),
       parseTableBlock tb bm = none ∨ ∃ td, parseTableBlock tb bm = some td) := by
  refine ⟨?_, ?_, ?_, ?_, ?_⟩
  · intro ids1 ids2 i bm hskip
    unfold cellEntries
    simp only [List.filterMap_append, List.filterMap_cons]
    rcases hskip with h | ⟨b, hb, hne⟩
    · rw [h]
    · rw [hb]
      have : (b.blockType == "CELL") = false := by
        simpa using hne
      simp [this]
  · intro ids1 ids2 i bm hskip
    unfold wordTextsOf
    simp only [List.filterMap_append, List.filterMap_cons]
    rcases hskip with h | ⟨b, hb, hne⟩
    · rw [h]
    · rw [hb]
      have : (b.blockType == "WORD") = false := by
        simpa using hne
      simp [this]
  · intro b r rest hr
    unfold firstChildIds
    simp [List.find?_cons, hr]
  · intro cb r1 r2 bm hrels h1 h2
    unfold getCellText
    rw [hrels]
    simp [List.filter_cons, h1, h2]
  · intro tb bm
    cases h : parseTableBlock tb bm with
    | none => exact Or.inl rfl
    | some td => exact Or.inr ⟨td, rfl⟩

/-- C10 counterexample: a CELL block with two CHILD relationships whose
cell text includes the words of BOTH relationships — consulting only the
first CHILD relationship, as the claim states, would give "alpha". -/
theorem cell_text_uses_all_child_relationships :
    getCellText cellTwoRels blockMapTwoRels = "alpha beta" ∧
    String.intercalate " " (wordTextsOf ["wa"] blockMapTwoRels) = "alpha" ∧
    ("alpha beta" : String) ≠ "alpha" :=
  ⟨by decide, by decide, by decide⟩

/-- C10 witness: a dangling id inside a TABLE child list is skipped, and
the two-relationship law applied to the concrete cell block. -/
theorem table_reconstruction_reference_handling_witness :
    blockMapW "zz" = none ∧
    cellEntries (["c1"] ++ "zz" :: ["c2"]) blockMapW =
      cellEntries (["c1"] ++ ["c2"]) blockMapW ∧
    cellTwoRels.relationships =
      [{ type := "CHILD", ids := ["wa"] }, { type := "CHILD", ids := ["wb"] }] ∧
    getCellText cellTwoRels blockMapTwoRels =
      String.intercalate " " (wordTextsOf ["wa"] blockMapTwoRels ++
        wordTextsOf ["wb"] blockMapTwoRels) := by
  refine ⟨rfl, ?_, rfl, ?_⟩
  · exact table_reconstruction_reference_handling.1 ["c1"] ["c2"] "zz" blockMapW
      (Or.inl rfl)
  · exact table_reconstruction_reference_handling.2.2.2.1 cellTwoRels
      { type := "CHILD", ids := ["wa"] } { type := "CHILD", ids := ["wb"] }
      blockMapTwoRels rfl rfl rfl

/-! ## C5 -/

theorem string_empty_append (s : String) : "" ++ s = s := rfl

/-- C5: for a non-table paragraph and a non-empty buffer, the buffer is
flushed as one "paragraph" chunk BEFORE the paragraph is added exactly
when buffer length plus paragraph length exceeds 1500 (the threshold
hard-coded in the chunker, equal to the CHUNK_SIZE default); when the
sum is at most 1500 — including exactly 1500 — no flush happens and the
paragraph is appended, so a flush never trails the paragraph that
overflows the buffer. -/
theorem chunker_flushes_before_threshold (tables : List Table) (st : ChunkState)
    (para0 : String)
    (hne : pyStrip para0 ≠ "")
    (hnt : pyStartsWith (pyStrip para0) "|" = false)
    (hbuf : st.currentChunk ≠ "") :
    (1500 < st.currentChunk.length + (pyStrip para0).length →
      (chunkStep tables st para0).chunks = st.chunks ++ [{
          id := "chunk-" ++ toString st.chunkId,
          content := pyStrip st.currentChunk,
          startIndex := st.currentStart,
          endIndex := st.currentStart + st.currentChunk.length,
          type := "paragraph",
          metadata := {} }] ∧
      (chunkStep tables st para0).currentChunk = pyStrip para0 ++ "\n\n" ∧
      (chunkStep tables st para0).currentStart =
        st.currentStart + st.currentChunk.length ∧
      (chunkStep tables st para0).chunkId = st.chunkId + 1) ∧
    (st.currentChunk.length + (pyStrip para0).length ≤ 1500 →
      (chunkStep tables st para0).chunks = st.chunks ∧
      (chunkStep tables st para0).currentChunk =
        st.currentChunk ++ pyStrip para0 ++ "\n\n" ∧
      (chunkStep tables st para0).currentStart = st.currentStart ∧
      (chunkStep tables st para0).chunkId = st.chunkId) := by
  constructor
  · intro hgt
    simp [chunkStep, flushBuffer, hne, hnt, hbuf, hgt, string_empty_append]
  · intro hle
    have hnlt : ¬(1500 < st.currentChunk.length + (pyStrip para0).length) :=
      Nat.not_lt.mpr hle
    simp [chunkStep, flushBuffer, hne, hnt, hbuf, hnlt]

theorem mk_replicate_x_length (n : Nat) :
    (String.mk (List.replicate n 'x')).length = n := by
  simp [String.length]

theorem dropWhile_replicate_x (n : Nat) :
    (List.replicate n 'x').dropWhile Char.isWhitespace = List.replicate n 'x' := by
  cases n with
  | zero => rfl
  | succ m =>
    rw [List.replicate_succ]
    rw [List.dropWhile_cons_of_neg (by decide)]

theorem pyStrip_replicate_x (n : Nat) :
    pyStrip (String.mk (List.replicate n 'x')) = String.mk (List.replicate n 'x') := by
  unfold pyStrip
  simp [String.toList, dropWhile_replicate_x]

theorem replicate_x_ne_empty (n : Nat) (h : 0 < n) :
    String.mk (List.replicate n 'x') ≠ "" := by
  intro he
  have hd : List.replicate n 'x' = ([] : List Char) := by
    simpa using congrArg String.data he
  have := congrArg List.length hd
  simp at this
  omega

theorem pyStartsWith_replicate_x (n : Nat) (h : 0 < n) :
    pyStartsWith (String.mk (List.replicate n 'x')) "|" = false := by
  cases n with
  | zero => omega
  | succ m =>
    rw [pyStartsWith]
    simp only [String.toList, List.replicate_succ]
    show List.isPrefixOf ['|'] ('x' :: List.replicate m 'x') = false
    rw [List.isPrefixOf_cons₂]
    simp

/-- C5 witness: with a 4-character buffer, a 1497-character paragraph
(sum 1501) forces a flush before the add; a 1496-character paragraph
(sum exactly 1500) is appended with no flush. -/
theorem chunker_flushes_before_threshold_witness :
    (1500 < stW.currentChunk.length + (pyStrip longPara).length ∧
      (chunkStep [] stW longPara).chunks = stW.chunks ++ [{
        id := "chunk-" ++ toString stW.chunkId,
        content := pyStrip stW.currentChunk,
        startIndex := stW.currentStart,
        endIndex := stW.currentStart + stW.currentChunk.length,
        type := "paragraph", metadata := {} }] ∧
      (chunkStep [] stW longPara).currentChunk = pyStrip longPara ++ "\n\n") ∧
    (stW.currentChunk.length + (pyStrip longPara2).length = 1500 ∧
      (chunkStep [] stW longPara2).chunks = stW.chunks ∧
      (chunkStep [] stW longPara2).currentChunk =
        stW.currentChunk ++ pyStrip longPara2 ++ "\n\n") := by
  have e1 : pyStrip longPara = longPara := pyStrip_replicate_x 1497
  have e2 : longPara.length = 1497 := mk_replicate_x_length 1497
  have e3 : pyStrip longPara2 = longPara2 := pyStrip_replicate_x 1496
  have e4 : longPara2.length = 1496 := mk_replicate_x_length 1496
  have eb : stW.currentChunk.length = 4 := by decide
  have hbuf : stW.currentChunk ≠ "" := by decide
  have hne1 : pyStrip longPara ≠ "" := by
    rw [e1]; exact replicate_x_ne_empty 1497 (by norm_num)
  have hnt1 : pyStartsWith (pyStrip longPara) "|" = false := by
    rw [e1]; exact pyStartsWith_replicate_x 1497 (by norm_num)
  have hne2 : pyStrip longPara2 ≠ "" := by
    rw [e3]; exact replicate_x_ne_empty 1496 (by norm_num)
  have hnt2 : pyStartsWith (pyStrip longPara2) "|" = false := by
    rw [e3]; exact pyStartsWith_replicate_x 1496 (by norm_num)
  have hgt : 1500 < stW.currentChunk.length + (pyStrip longPara).length := by
    rw [e1, eb, e2]; norm_num
  have heq : stW.currentChunk.length + (pyStrip longPara2).length = 1500 := by
    rw [e3, eb, e4]
  have h1 := (chunker_flushes_before_threshold [] stW longPara hne1 hnt1 hbuf).1 hgt
  have h2 := (chunker_flushes_before_threshold [] stW longPara2 hne2 hnt2 hbuf).2
    (Nat.le_of_eq heq)
  exact ⟨⟨hgt, h1.1, h1.2.1⟩, ⟨heq, h2.1, h2.2.1⟩⟩

/-! ## C3 -/

theorem place_foldl_lookup (entries : List (Int × Int × String))
    (m0 : Int → Int → Option String) (r c : Int) :
    (entries.foldl
        (fun m e => fun r c => if r = e.1 ∧ c = e.2.1 then some e.2.2 else m r c) m0) r c
      = ((entries.filter (fun e => e.1 == r && e.2.1 == c)).getLast?).elim
          (m0 r c) (fun x => some x.2.2) := by
  induction entries using List.reverseRecOn with
  | nil => simp
  | append_singleton l e ih =>
    rw [List.foldl_append, List.filter_append]
    by_cases hc : (e.1 == r && e.2.1 == c) = true
    · have hp : r = e.1 ∧ c = e.2.1 := by
        simp only [Bool.and_eq_true, beq_iff_eq] at hc
        exact ⟨hc.1.symm, hc.2.symm⟩
      simp only [List.foldl_cons, List.foldl_nil]
      rw [if_pos hp]
      have hf : List.filter (fun e => e.1 == r && e.2.1 == c) [e] = [e] := by
        simp [List.filter, hc]
      rw [hf, List.getLast?_concat]
      rfl
    · have hp : ¬(r = e.1 ∧ c = e.2.1) := by
        simp only [Bool.and_eq_true, beq_iff_eq] at hc
        intro hcon
        exact hc ⟨hcon.1.symm, hcon.2.symm⟩
      simp only [List.foldl_cons, List.foldl_nil]
      rw [if_neg hp]
      have hf : List.filter (fun e => e.1 == r && e.2.1 == c) [e] = [] := by
        simp [List.filter, hc]
      rw [hf, List.append_nil]
      exact ih

theorem specSparsePlace_eq_cellAt (entries : List (Int × Int × String)) (r c : Int) :
    specSparsePlace entries r c = cellAt entries r c := by
  unfold specSparsePlace cellAt
  rw [place_foldl_lookup]
  cases h : (entries.filter (fun e => e.1 == r && e.2.1 == c)).getLast? with
  | none => rfl
  | some x => rfl

theorem specGrid_eq_denseGrid (entries : List (Int × Int × String)) :
    specGrid entries = denseGrid entries := by
  unfold specGrid denseGrid
  simp only [specSparsePlace_eq_cellAt]

theorem foldl_max_all_zero (l : List Int) (a : Int) (hall : ∀ x ∈ l, x = 0)
    (hne : l ≠ []) : l.foldl max a = max a 0 := by
  induction l generalizing a with
  | nil => exact absurd rfl hne
  | cons x xs ih =>
    have hx : x = 0 := hall x (by simp)
    subst hx
    by_cases h : xs = []
    · subst h; simp
    · rw [List.foldl_cons]
      rw [ih (max a 0) (fun y hy => hall y (by simp [hy])) h]
      rw [max_assoc, max_self]

theorem maxRowOf_all_zero (entries : List (Int × Int × String))
    (hne : entries ≠ []) (hall : ∀ e ∈ entries, e.1 = 0) :
    maxRowOf entries = 0 := by
  unfold maxRowOf
  rw [foldl_max_all_zero]
  · decide
  · intro x hx
    simp only [List.mem_map] at hx
    obtain ⟨e, he, rfl⟩ := hx
    exact hall e he
  · simpa using hne

theorem denseGrid_row_length (entries : List (Int × Int × String)) :
    ∀ row ∈ denseGrid entries, row.length = (maxColOf entries + 1).toNat := by
  intro row hrow
  unfold denseGrid at hrow
  simp only [List.mem_map] at hrow
  obtain ⟨r, _, rfl⟩ := hrow
  simp

theorem denseGrid_length (entries : List (Int × Int × String)) :
    (denseGrid entries).length = (maxRowOf entries + 1).toNat := by
  unfold denseGrid
  simp

/-- C3: table reconstruction places each resolvable CELL at
(RowIndex-1, ColumnIndex-1) in a sparse map with later cells
overwriting, materializes the dense (max_row+1) x (max_col+1) grid
filling absent positions with "", and takes grid row 0 as the header
and the remaining rows as the body — headers :: rows equals the
spec-worded sparse-then-dense grid, with the stated dimensions; a TABLE
block whose cells occupy only RowIndex 1 yields a header-only table
with an empty body; a TABLE block with no CHILD relationship or an
empty cell map is dropped (None), not emitted. -/
theorem parse_table_block_reconstruction (tb : Block) (bm : String → Option Block) :
    ((firstChildIds tb = [] ∨ cellEntries (firstChildIds tb) bm = []) →
       parseTableBlock tb bm = none) ∧
    (∀ td, parseTableBlock tb bm = some td →
       td.headers :: td.rows = specGrid (cellEntries (firstChildIds tb) bm) ∧
       td.headers.length = (maxColOf (cellEntries (firstChildIds tb) bm) + 1).toNat ∧
       td.rows.length = (maxRowOf (cellEntries (firstChildIds tb) bm)).toNat) ∧
    (cellEntries (firstChildIds tb) bm ≠ [] →
     (∀ e ∈ cellEntries (firstChildIds tb) bm, e.1 = 0) →
       ∃ headerRow, parseTableBlock tb bm = some { headers := headerRow, rows := [] }) := by
  refine ⟨?_, ?_, ?_⟩
  · intro h
    rcases h with h | h
    · simp [parseTableBlock, h]
    · by_cases hids : firstChildIds tb = []
      · simp [parseTableBlock, hids]
      · simp [parseTableBlock, hids, h]
  · intro td h
    by_cases h1 : firstChildIds tb = []
    · simp [parseTableBlock, h1] at h
    · by_cases h2 : cellEntries (firstChildIds tb) bm = []
      · simp [parseTableBlock, h1, h2] at h
      · by_cases h3 : denseGrid (cellEntries (firstChildIds tb) bm) = []
        · simp [parseTableBlock, h1, h2, h3] at h
        · have hsome : parseTableBlock tb bm =
              some { headers := (denseGrid (cellEntries (firstChildIds tb) bm)).headD [],
                     rows := (denseGrid (cellEntries (firstChildIds tb) bm)).tail } := by
            simp [parseTableBlock, h1, h2, h3]
          rw [hsome] at h
          injection h with h4
          subst h4
          refine ⟨?_, ?_, ?_⟩
          · rw [specGrid_eq_denseGrid]
            exact headD_cons_tail _ _ h3
          · apply denseGrid_row_length
            cases hg : denseGrid (cellEntries (firstChildIds tb) bm) with
            | nil => exact absurd hg h3
            | cons a l => simp
          · simp only [List.length_tail, denseGrid_length]
            omega
  · intro hne hall
    have h1 : ¬ firstChildIds tb = [] := by
      intro h0
      exact hne (by rw [h0]; rfl)
    have hmax : maxRowOf (cellEntries (firstChildIds tb) bm) = 0 :=
      maxRowOf_all_zero _ hne hall
    have hgrid : denseGrid (cellEntries (firstChildIds tb) bm) =
        [(List.range (maxColOf (cellEntries (firstChildIds tb) bm) + 1).toNat).map
          (fun c => (cellAt (cellEntries (firstChildIds tb) bm)
            (Int.ofNat 0) (Int.ofNat c)).getD "")] := by
      unfold denseGrid
      rw [hmax]
      norm_num [List.range_succ]
    have h3 : ¬ denseGrid (cellEntries (firstChildIds tb) bm) = [] := by
      rw [hgrid]
      simp
    exact ⟨(List.range (maxColOf (cellEntries (firstChildIds tb) bm) + 1).toNat).map
      (fun c => (cellAt (cellEntries (firstChildIds tb) bm)
        (Int.ofNat 0) (Int.ofNat c)).getD ""),
      by simp [parseTableBlock, h1, hne, h3, hgrid]⟩

/-- C3 witness: a TABLE whose two CELL children sit at RowIndex 1,
ColumnIndex 1 and 2 yields a header-only table with an empty body. -/
theorem parse_table_block_reconstruction_witness :
    cellEntries (firstChildIds tableBlockW) blockMapW ≠ [] ∧
    (∀ e ∈ cellEntries (firstChildIds tableBlockW) blockMapW, e.1 = 0) ∧
    ∃ headerRow, parseTableBlock tableBlockW blockMapW =
      some { headers := headerRow, rows := [] } := by
  refine ⟨by decide, by decide, ?_⟩
  exact (parse_table_block_reconstruction tableBlockW blockMapW).2.2
    (by decide) (by decide)
